import Mathlib

/-!
Verification development for the command-dispatch and progress-indicator core
of the `java-protal` JVM version manager
(src/portal-rt/src/services/ProgramOptionsService.cpp).

The program's observable behaviour is embedded as traces of primitive events
(`Ev`): terminal prints (with their channel and colour/emphasis), the launch
of the indicator thread, the call to the remote catalog client, the call to
`stopRenderLoadingIndicator`, writes to the shared `isLoading` flag, stream
flushes, and sleeps.  Handlers are functions from the external world (the
remote catalog client's outcome) to a trace plus an `Except`-typed result
modelling a thrown-or-not `std::exception`.
-/

namespace Portal

/-- Output channel of a print.  `fmt::print` without a stream argument writes
to standard output. -/
inductive Channel where
  | stdout
  | stderr
deriving DecidableEq, Repr

/-- Text style passed to `fmt::print` (`fmt::fg(...)` / `fmt::emphasis::...`);
`plain` is a print with no style argument. -/
inductive Style where
  | plain
  | bold
  | red
  | gold
  | blueViolet
deriving DecidableEq, Repr

/-- Primitive observable events of the program. -/
inductive Ev where
  /-- A `fmt::print` (or `std::cout`) write of `s` on channel `ch` with style `st`. -/
  | print (ch : Channel) (st : Style) (s : String)
  /-- `std::thread { [this]() { renderLoadingIndicator(status); } }.detach()`:
  launching the indicator's execution unit (source line 138). -/
  | spawnIndicator (status : String)
  /-- The blocking call `jvmRepo->getAvailableJVMs()` (source line 141). -/
  | callRepo
  /-- A call to `stopRenderLoadingIndicator()` (source lines 142 and 150); its
  own body is modelled separately by `stopRenderLoadingIndicator` below since
  its effect depends on the racing flag state. -/
  | stopIndicatorCall
  /-- A write of `b` to the shared `isLoading` flag. -/
  | setLoading (b : Bool)
  /-- `std::cout << std::flush` (source line 170). -/
  | flushOut
  /-- `std::this_thread::sleep_for(500ms)` (source line 173). -/
  | sleep
deriving DecidableEq, Repr

/-- Modelled from the spec: `constants::VERSION` comes from
`Constants/Versions.hpp`, which is not under src/; the spec (§4.2, §6) only
calls it "the static version string", so its exact value is a placeholder. -/
def VERSION : String := "0.1.0"

/-- Pad `s` on the right with spaces to width `w` (fmt's `{:<w}`; strings
longer than `w` are not truncated). -/
def padRight (s : String) (w : Nat) : String :=
  s ++ String.mk (List.replicate (w - s.length) ' ')

/-- Pad `s` on the left with spaces to width `w` (fmt's `{:>w}`). -/
def padLeft (s : String) (w : Nat) : String :=
  String.mk (List.replicate (w - s.length) ' ') ++ s

/-- The outcome of the external Remote Catalog Client
(`jvmRepo->getAvailableJVMs()`): an ordered sequence of version strings, or a
failure carrying the `std::exception` message `e.what()`. -/
structure World where
  repoResult : Except String (List String)

/-- The parsed option set produced by the argument-parsing collaborator:
presence of `--version` and `--hello-world`, the optional `--level` integer,
and the optional positional "command" token (source lines 48-63). -/
structure VariableMap where
  version : Bool
  helloWorld : Bool
  level : Option Int
  command : Option String

/-- A registry entry: description plus zero-argument handler.  The handler
yields the trace of events it performs and `Except.error msg` when it throws a
`std::exception` with message `msg`. -/
structure CommandEntry where
  description : String
  invoker : World → List Ev × Except String Unit

/-- The 7-glyph animation sequence of `renderLoadingIndicator`
(source lines 158-159). -/
def loadingAnimation : List String := ["▖", "▞", "▟", "█", "▙", "▚", "▗"]

/-- The value of the local variable `frame` at the top of loop iteration `n`
of `renderLoadingIndicator`: `frame` starts at 0; each iteration reads it,
post-increments it, and resets it to 0 once it reaches
`loadingAnimation.size()` (source lines 160, 169, 172). -/
def frameAt : Nat → Nat
  | 0 => 0
  | n + 1 => if frameAt n + 1 ≥ 7 then 0 else frameAt n + 1

/-- The glyph painted on loop iteration `n`: `loadingAnimation[frame++]`
(source line 169). -/
def displayedGlyph (n : Nat) : String :=
  loadingAnimation.getD (frameAt n) ""

/-- The events of loop iteration `n` of `renderLoadingIndicator`: restore
cursor and clear to end of screen, paint the frame glyph and status in gold,
flush, sleep (source lines 168-173). -/
def indicatorFrameEvents (status : String) (n : Nat) : List Ev :=
  [Ev.print .stdout .plain "\x1b[u\x1b[0J",
   Ev.print .stdout .gold (displayedGlyph n ++ " " ++ status),
   Ev.flushOut,
   Ev.sleep]

/-- The events `renderLoadingIndicator` performs before entering its loop,
given the value of the shared `isLoading` flag when it starts:
`if (!isLoading) isLoading = true;` then save the cursor position
(source lines 163-165). -/
def renderLoadingIndicatorPrologue (isLoading : Bool) : List Ev :=
  (if !isLoading then [Ev.setLoading true] else []) ++
  [Ev.print .stdout .plain "\x1b[s"]

/-- The body of `stopRenderLoadingIndicator`, given the flag value at the
moment of the call: `if (isLoading) isLoading = false;` then restore/save/clear
(source lines 177-181). -/
def stopRenderLoadingIndicator (isLoading : Bool) : List Ev :=
  (if isLoading then [Ev.setLoading false] else []) ++
  [Ev.print .stdout .plain "\x1b[u\x1b[s\x1b[J"]

/-- The trace of `fetchRemoteJVMVersion` (the `installable` handler, source
lines 134-153) as a function of the Remote Catalog Client's outcome: detach
the indicator thread, call the repo; on success stop the indicator then print
the bold header, the bullet-joined list and the install hint; on failure stop
the indicator then print the failure's message in red (via `fmt::print`
without a stream argument, i.e. on standard output).  The `catch` means the
handler itself never propagates a failure. -/
def fetchRemoteJVMVersion (repoResult : Except String (List String)) : List Ev :=
  [Ev.spawnIndicator "fetching...", Ev.callRepo] ++
  match repoResult with
  | Except.ok result =>
      [Ev.stopIndicatorCall,
       Ev.print .stdout .bold "Available versions:\n\n",
       Ev.print .stdout .plain (" * " ++ String.intercalate "\n * " result ++ "\n"),
       Ev.print .stdout .plain "\nUse ",
       Ev.print .stdout .bold "portal add <version>",
       Ev.print .stdout .plain " to install a JVM"]
  | Except.error e =>
      [Ev.stopIndicatorCall,
       Ev.print .stdout .red (e ++ "\n")]

/-- The command names and descriptions registered at startup, in registration
order (source lines 38-45). -/
def commandDescs : List (String × String) :=
  [("help", "Print help message"),
   ("list", "List all installed JVMs"),
   ("installable", "List available versions of JVM online"),
   ("ani-debug", "use to debug animation")]

/-- The declared options of `optionsDescription` as
(format_name, format_parameter, description) triples (source lines 48-52).
The name/parameter rendering follows the argument-parsing collaborator's
conventions (out of scope per spec §1): `--name`, with parameter `arg` for
valued options. -/
def optionsDescriptionList : List (String × String × String) :=
  [("--version", "", "Print the version number"),
   ("--hello-world", "", "Print hello world message to the screen"),
   ("--level", "arg", "Level of an integer where use to testing only"),
   ("--command", "arg", "Commands")]

/-- The banner text of `printHelpMessage`: five lines of ASCII art, a
right-aligned tagline and version, printed in blue-violet
(source lines 100-104).  `\x27` is an apostrophe, `\x60` a backtick. -/
def bannerText : String :=
  " ____            _        _\n" ++
  "|  _ \\ ___  _ __| |_ __ _| |\n" ++
  "| |_) / _ \\| \x27__| __/ _\x60 | |\n" ++
  "|  __| (_) | |  | || (_| | |\n" ++
  "|_|   \\___/|_|   \\__\\__,_|_|\n" ++
  padLeft "A version manager for Java" 35 ++ "\n" ++
  padLeft ("v" ++ VERSION) 35 ++ "\n\n"

/-- One command line of the help text:
`fmt::print("    {1:<{0}} := {2:<30}\n", 20, name, description)`
(source line 111). -/
def commandHelpLine (p : String × String) : Ev :=
  Ev.print .stdout .plain ("    " ++ padRight p.1 20 ++ " := " ++ padRight p.2 30 ++ "\n")

/-- One option line of the help text: the formatted name gets
`" [param]"` appended when the parameter is nonempty, then
`fmt::print("    {1:<{0}} := {2}\n", 20, optionName, description)`
(source lines 123-128). -/
def optionHelpLine (o : String × String × String) : Ev :=
  Ev.print .stdout .plain
    ("    " ++
     padRight (if o.2.1.isEmpty then o.1 else o.1 ++ " [" ++ o.2.1 ++ "]") 20 ++
     " := " ++ o.2.2 ++ "\n")

/-- The full trace of `printHelpMessage` (source lines 95-132): banner, usage,
"Commands:" followed by one line per registered command in enumeration order,
"Options:" followed by one line per declared option skipping the ignore-list
entry `--command`, and a final newline. -/
def printHelpMessage : List Ev :=
  [Ev.print .stdout .blueViolet bannerText,
   Ev.print .stdout .plain "Usage: portal [command] <option>...\n\n",
   Ev.print .stdout .plain "Commands:\n"] ++
  commandDescs.map commandHelpLine ++
  [Ev.print .stdout .plain "\nOptions:\n"] ++
  (optionsDescriptionList.filter (fun o => o.1 != "--command")).map optionHelpLine ++
  [Ev.print .stdout .plain "\n"]

/-- The trace of the `ani-debug` handler: it runs `renderLoadingIndicator`
on a thread that it joins (source lines 34-36); only the launch event is
recorded here, as with the detached launch in `fetchRemoteJVMVersion`. -/
def aniDebugTrace : List Ev :=
  [Ev.spawnIndicator "Debuging animation..."]

/-- Modelled from the spec: the container type of the `commands` member is
declared in `ProgramOptionsService.hpp`, which is not under src/; the spec
(§2, §3, §4.1) specifies an ordered mapping whose enumeration preserves
insertion order, embedded here as an association list.  The entries, their
order, descriptions and handlers are from the source (lines 38-45). -/
def commands : List (String × CommandEntry) :=
  [("help",
    { description := "Print help message",
      invoker := fun _ => (printHelpMessage, Except.ok ()) }),
   ("list",
    { description := "List all installed JVMs",
      invoker := fun _ => ([], Except.ok ()) }),
   ("installable",
    { description := "List available versions of JVM online",
      invoker := fun w => (fetchRemoteJVMVersion w.repoResult, Except.ok ()) }),
   ("ani-debug",
    { description := "use to debug animation",
      invoker := fun _ => (aniDebugTrace, Except.ok ()) })]

/-- Registry lookup, the behaviour of `commands.at(command)`: the entry whose
key is exactly `name`, if any (a miss throws `std::out_of_range`, modelled at
the call site). -/
def lookupCommand (reg : List (String × CommandEntry)) (name : String) :
    Option CommandEntry :=
  (reg.find? (fun p => p.1 == name)).map Prod.snd

/-- The dispatcher's error message for an unknown command or a throwing
handler (source lines 86-87). -/
def unknownCommandMsg (c : String) : String :=
  "Unknown command \"" ++ c ++ "\", use \"portal help\" to get usage info"

/-- The dispatcher's error message when no positional command token is present
(source lines 90-91). -/
def noCommandMsg : String :=
  "No command to run, use \"portal help\" to get usage info"

/-- `distributeCommandWorkers` (source lines 67-93): if the `version` flag is
present, print the version string and return; otherwise print the hello-world
greeting and/or the level line if those flags are present, then: if a command
token is present, look it up and invoke it, converting a lookup miss
(`std::out_of_range` from `.at`) or any `std::exception` thrown by the handler
into the `unknownCommandMsg` failure; if no token is present, fail with
`noCommandMsg`.  Returns the printed trace and the `Except`-typed outcome
(an `error` models the thrown `std::runtime_error`). -/
def distributeCommandWorkers (reg : List (String × CommandEntry)) (w : World)
    (vm : VariableMap) : List Ev × Except String Unit :=
  if vm.version then
    ([Ev.print .stdout .plain VERSION], Except.ok ())
  else
    let pre : List Ev :=
      (if vm.helloWorld then [Ev.print .stdout .plain "Hello World!\n"] else []) ++
      (match vm.level with
       | some n => [Ev.print .stdout .plain ("Level is set to " ++ toString n ++ "\n")]
       | none => [])
    match vm.command with
    | some cmd =>
      match lookupCommand reg cmd with
      | some entry =>
        let res := entry.invoker w
        match res.2 with
        | Except.ok _ => (pre ++ res.1, Except.ok ())
        | Except.error _ => (pre ++ res.1, Except.error (unknownCommandMsg cmd))
      | none => (pre, Except.error (unknownCommandMsg cmd))
    | none => (pre, Except.error noCommandMsg)

/-- Modelled from the spec: the program entry point is not under src/ (only
`distributeCommandWorkers` and its callees are); per spec §4.2 and §6, a
failure escaping the dispatcher "always results in the message being printed
to the error stream and the process exiting with a non-zero status", and a
successful dispatch exits 0.  Returns the full trace and the exit code. -/
def runProgram (reg : List (String × CommandEntry)) (w : World)
    (vm : VariableMap) : List Ev × Nat :=
  let d := distributeCommandWorkers reg w vm
  match d.2 with
  | Except.ok _ => (d.1, 0)
  | Except.error msg => (d.1 ++ [Ev.print .stderr .plain (msg ++ "\n")], 1)

/-! ## Theorems -/

/-- Helper: the frame counter at the top of iteration `n` is `n % 7`. -/
theorem frameAt_eq_mod (n : Nat) : frameAt n = n % 7 := by
  induction n with
  | zero => rfl
  | succ n ih =>
    simp only [frameAt, ih]
    split <;> omega

/-- C8: on loop iteration `N` of `renderLoadingIndicator` the painted glyph is
`loadingAnimation[N mod 7]` — the frame counter equals `N mod 7`, the glyph
painted by the gold print of that iteration is the element at that index, and
after the last (7th) glyph the cycle wraps back to the first. -/
theorem indicator_frame_cycling (status : String) (n : Nat) :
    frameAt n = n % 7 ∧
    displayedGlyph n = loadingAnimation.getD (n % 7) "" ∧
    indicatorFrameEvents status n =
      [Ev.print .stdout .plain "\x1b[u\x1b[0J",
       Ev.print .stdout .gold (loadingAnimation.getD (n % 7) "" ++ " " ++ status),
       Ev.flushOut, Ev.sleep] := by
  refine ⟨frameAt_eq_mod n, ?_, ?_⟩ <;>
    simp [indicatorFrameEvents, displayedGlyph, frameAt_eq_mod n]

/-- C10: every access `loadingAnimation[frame]` in `renderLoadingIndicator`
uses an in-bounds index: on every loop iteration `n` the frame counter is
(at least 0 and) strictly below the length 7 of the animation array. -/
theorem indicator_index_in_bounds (n : Nat) :
    frameAt n < loadingAnimation.length := by
  rw [frameAt_eq_mod]
  simp only [loadingAnimation, List.length_cons, List.length_nil]
  omega

/-- C7: when the Remote Catalog Client returns a list of version strings, the
`installable` handler stops the progress indicator and only then prints the
bold "Available versions:" header, the bullet-joined version list, and the
hint showing how to install a version. -/
theorem installable_success_output (result : List String) :
    fetchRemoteJVMVersion (Except.ok result) =
      [Ev.spawnIndicator "fetching...",
       Ev.callRepo,
       Ev.stopIndicatorCall,
       Ev.print .stdout .bold "Available versions:\n\n",
       Ev.print .stdout .plain (" * " ++ String.intercalate "\n * " result ++ "\n"),
       Ev.print .stdout .plain "\nUse ",
       Ev.print .stdout .bold "portal add <version>",
       Ev.print .stdout .plain " to install a JVM"] := rfl

/-- C3 counterexample: with the client failing with "network unreachable", the
handler's trace contains no print on the error stream at all; the red failure
message is printed on standard output (`fmt::print` with no stream argument),
so the claim that the message goes to standard error is false. -/
theorem installable_failure_not_stderr :
    ((fetchRemoteJVMVersion (Except.error "network unreachable")).all
      (fun ev => match ev with
        | Ev.print Channel.stderr _ _ => false
        | _ => true) = true) ∧
    Ev.print .stdout .red "network unreachable\n" ∈
      fetchRemoteJVMVersion (Except.error "network unreachable") := by
  constructor <;> decide

/-- C3 amended: when the Remote Catalog Client fails, the handler stops the
progress indicator and only then prints the failure's message in red — to
standard output, not to the error stream. -/
theorem installable_failure_output (e : String) :
    fetchRemoteJVMVersion (Except.error e) =
      [Ev.spawnIndicator "fetching...",
       Ev.callRepo,
       Ev.stopIndicatorCall,
       Ev.print .stdout .red (e ++ "\n")] := rfl

/-- C9 counterexample: in a concrete failing run of the `installable` handler,
the starter's trace begins directly with the launch of the indicator thread
and contains no `setLoading true` write anywhere, so the claim that the
starter sets the running flag before launching the indicator loop is false. -/
theorem starter_does_not_set_flag :
    (fetchRemoteJVMVersion (Except.error "network unreachable")).head? =
      some (Ev.spawnIndicator "fetching...") ∧
    Ev.setLoading true ∉ fetchRemoteJVMVersion (Except.error "network unreachable") := by
  constructor <;> decide

/-- C9 amended: the starter does not set the running flag before launching the
indicator's execution unit — its very first event is the launch, and no
`setLoading true` occurs in its trace; it is the indicator loop itself that
sets the flag to true (when not already set) as its first action, before
saving the cursor. -/
theorem flag_set_by_indicator_loop (r : Except String (List String)) :
    (fetchRemoteJVMVersion r).head? = some (Ev.spawnIndicator "fetching...") ∧
    Ev.setLoading true ∉ fetchRemoteJVMVersion r ∧
    renderLoadingIndicatorPrologue false =
      [Ev.setLoading true, Ev.print .stdout .plain "\x1b[s"] := by
  refine ⟨?_, ?_, rfl⟩ <;> cases r <;> simp [fetchRemoteJVMVersion]

/-- C5: whenever the `version` flag is present in the parsed option set, the
dispatcher prints only the static version string and returns success
immediately — the hello-world greeting, the level line, and any command
resolution or handler execution are all skipped, whatever the other fields
hold and whatever the remote world does. -/
theorem version_short_circuits (reg : List (String × CommandEntry)) (w : World)
    (vm : VariableMap) (hv : vm.version = true) :
    distributeCommandWorkers reg w vm =
      ([Ev.print .stdout .plain VERSION], Except.ok ()) := by
  simp [distributeCommandWorkers, hv]

/-- Witness for C5: with `--version --hello-world --level 5` and the command
token `help`, only the version string is printed and dispatch succeeds. -/
theorem version_short_circuits_witness :
    distributeCommandWorkers commands ⟨Except.ok []⟩
        ⟨true, true, some 5, some "help"⟩ =
      ([Ev.print .stdout .plain VERSION], Except.ok ()) :=
  version_short_circuits commands ⟨Except.ok []⟩ ⟨true, true, some 5, some "help"⟩ rfl

/-- C6: the registry holds exactly `help`, `list`, `installable`, `ani-debug`
in registration order, the registered (name, description) pairs are the ones
rendered by the help text, and the help display enumerates the commands in
exactly that registration order (between the "Commands:" and "Options:"
headers). -/
theorem help_display_registration_order :
    commands.map Prod.fst = ["help", "list", "installable", "ani-debug"] ∧
    commands.map (fun p => (p.1, p.2.description)) = commandDescs ∧
    printHelpMessage =
      [Ev.print .stdout .blueViolet bannerText,
       Ev.print .stdout .plain "Usage: portal [command] <option>...\n\n",
       Ev.print .stdout .plain "Commands:\n",
       commandHelpLine ("help", "Print help message"),
       commandHelpLine ("list", "List all installed JVMs"),
       commandHelpLine ("installable", "List available versions of JVM online"),
       commandHelpLine ("ani-debug", "use to debug animation"),
       Ev.print .stdout .plain "\nOptions:\n",
       optionHelpLine ("--version", "", "Print the version number"),
       optionHelpLine ("--hello-world", "", "Print hello world message to the screen"),
       optionHelpLine ("--level", "arg", "Level of an integer where use to testing only"),
       Ev.print .stdout .plain "\n"] :=
  ⟨rfl, rfl, rfl⟩

/-- Helper: when dispatch ends in a failure with message `msg`, the program
prints `msg` on the error stream after the dispatch output and exits 1. -/
theorem runProgram_error (reg : List (String × CommandEntry)) (w : World)
    (vm : VariableMap) (msg : String)
    (h : (distributeCommandWorkers reg w vm).2 = Except.error msg) :
    (runProgram reg w vm).2 = 1 ∧
    ∃ pre, (runProgram reg w vm).1 =
      pre ++ [Ev.print .stderr .plain (msg ++ "\n")] := by
  refine ⟨?_, ⟨(distributeCommandWorkers reg w vm).1, ?_⟩⟩ <;>
    simp [runProgram, h]

/-- C1: whenever the version flag is absent, a command token is present, and
either the token is not a registered name or the resolved handler's invocation
ends in a failure, the program prints the single generic
`Unknown command "<name>", use "portal help" to get usage info` message on the
error stream and exits with a non-zero status (exit code 1). -/
theorem unknown_command_funnel (reg : List (String × CommandEntry)) (w : World)
    (vm : VariableMap) (cmd : String)
    (hv : vm.version = false) (hc : vm.command = some cmd)
    (hfail : lookupCommand reg cmd = none ∨
      ∃ entry msg, lookupCommand reg cmd = some entry ∧
        (entry.invoker w).2 = Except.error msg) :
    (runProgram reg w vm).2 = 1 ∧
    ∃ pre, (runProgram reg w vm).1 =
      pre ++ [Ev.print .stderr .plain (unknownCommandMsg cmd ++ "\n")] := by
  apply runProgram_error
  rcases hfail with hnone | ⟨entry, msg, hsome, herr⟩
  · simp [distributeCommandWorkers, hv, hc, hnone]
  · simp [distributeCommandWorkers, hv, hc, hsome, herr]

/-- Witness for C1: the unregistered token `bogus` yields exit code 1 and the
generic unknown-command message on the error stream. -/
theorem unknown_command_funnel_witness :
    (runProgram commands ⟨Except.ok []⟩ ⟨false, false, none, some "bogus"⟩).2 = 1 ∧
    ∃ pre, (runProgram commands ⟨Except.ok []⟩ ⟨false, false, none, some "bogus"⟩).1 =
      pre ++ [Ev.print .stderr .plain (unknownCommandMsg "bogus" ++ "\n")] :=
  unknown_command_funnel commands ⟨Except.ok []⟩ ⟨false, false, none, some "bogus"⟩
    "bogus" rfl rfl (Or.inl rfl)

/-- C2 counterexample: a parsed option set with the `version` flag present and
no positional command token does not fail at all — dispatch prints the version
string and the process exits 0, contradicting the claim that the absence of a
command token yields the "No command to run" failure and a non-zero exit
regardless of which other flags (version, hello-world, level) are set. -/
theorem no_command_with_version_flag_exits_zero :
    runProgram commands ⟨Except.ok []⟩ ⟨true, false, none, none⟩ =
      ([Ev.print .stdout .plain VERSION], 0) := rfl

/-- C2 amended: whenever the parsed option set contains no positional command
token and the `version` flag is absent, dispatch fails with the
`No command to run, use "portal help" to get usage info` message on the error
stream and a non-zero exit (code 1), regardless of the hello-world and level
flags. -/
theorem no_command_funnel (reg : List (String × CommandEntry)) (w : World)
    (vm : VariableMap) (hv : vm.version = false) (hc : vm.command = none) :
    (runProgram reg w vm).2 = 1 ∧
    ∃ pre, (runProgram reg w vm).1 =
      pre ++ [Ev.print .stderr .plain (noCommandMsg ++ "\n")] := by
  apply runProgram_error
  simp [distributeCommandWorkers, hv, hc]

/-- Witness for C2's amended claim: with hello-world and level both set and no
command token, the run still ends with the "No command to run" message and
exit code 1. -/
theorem no_command_funnel_witness :
    (runProgram commands ⟨Except.ok []⟩ ⟨false, true, some 3, none⟩).2 = 1 ∧
    ∃ pre, (runProgram commands ⟨Except.ok []⟩ ⟨false, true, some 3, none⟩).1 =
      pre ++ [Ev.print .stderr .plain (noCommandMsg ++ "\n")] :=
  no_command_funnel commands ⟨Except.ok []⟩ ⟨false, true, some 3, none⟩ rfl rfl

/-- C4: for every outcome of the Remote Catalog Client, the `installable`
handler's invocation ends in success (the failure is caught inside
`fetchRemoteJVMVersion` and never propagates to the dispatcher's error
funnel), so a run of the `installable` command exits with status 0. -/
theorem installable_swallows_failure (w : World) (vm : VariableMap)
    (hv : vm.version = false) (hc : vm.command = some "installable") :
    (∃ entry, lookupCommand commands "installable" = some entry ∧
      ∀ w' : World, (entry.invoker w').2 = Except.ok ()) ∧
    (runProgram commands w vm).2 = 0 := by
  refine ⟨⟨_, rfl, fun _ => rfl⟩, ?_⟩
  simp [runProgram, distributeCommandWorkers, hv, hc, lookupCommand, commands]

/-- Witness for C4: even when the client fails with "network unreachable",
running `installable` exits with status 0. -/
theorem installable_swallows_failure_witness :
    (∃ entry, lookupCommand commands "installable" = some entry ∧
      ∀ w' : World, (entry.invoker w').2 = Except.ok ()) ∧
    (runProgram commands ⟨Except.error "network unreachable"⟩
        ⟨false, false, none, some "installable"⟩).2 = 0 :=
  installable_swallows_failure ⟨Except.error "network unreachable"⟩
    ⟨false, false, none, some "installable"⟩ rfl rfl

end Portal
